import Mathlib

/-!
# terra-operator: the reconciler and the execution agent

A shallow embedding of

* `internal/controller/terraform_controller.go` (`Reconcile`, `JobForTerraform`), and
* `pkg/agent/main.go` (`installTerraform`, `terraformPlan`).

Both programs are sequences of calls into external collaborators (the cluster
client, the release installer, the file system, git, the terraform
executable).  The collaborators are not part of the repository: each one is
represented by the answer it gives, and the programs are embedded as pure
functions from those answers and an explicit state to a new state, the value
returned, and the list of calls issued.
-/

set_option autoImplicit false

namespace Controller

/-! ## Data model -/

/-- An error value answered by a call of the cluster client. -/
inductive ApiError where
  | notFound
  | alreadyExists
  | other (reason : String)
  deriving DecidableEq, Repr

/-- The classifier `errors.IsNotFound`. -/
def IsNotFound : ApiError → Bool
  | .notFound => true
  | _ => false

/-- The classifier `errors.IsAlreadyExists`; `Reconcile` never calls it. -/
def IsAlreadyExists : ApiError → Bool
  | .alreadyExists => true
  | _ => false

/-- Modelled from the spec: the type `iacv1alpha1.TerraformSpec` is declared in
`api/v1alpha1`, which is not among the sources.  The fields are the declared
resource fields of the specification: module source location, requested tool
version, variable mapping. -/
structure TerraformSpec where
  ModulePath : String
  Version : String
  Variables : List (String × String)
  deriving DecidableEq, Repr

/-- Modelled from the spec: the type `iacv1alpha1.Terraform` is declared in
`api/v1alpha1`, which is not among the sources.  Of its object metadata only
the fields read by the controller are kept: `Name`, `Namespace`, `UID`. -/
structure Terraform where
  Name : String
  Namespace : String
  UID : String
  Spec : TerraformSpec
  deriving DecidableEq, Repr

/-- The value of `&iacv1alpha1.Terraform{}`: every field at its zero value. -/
def Terraform.zero : Terraform :=
  { Name := "", Namespace := "", UID := "", Spec := { ModulePath := "", Version := "", Variables := [] } }

/-- The fields of `metav1.OwnerReference` set by the controller. -/
structure OwnerReference where
  APIVersion : String
  Kind : String
  Name : String
  UID : String
  deriving DecidableEq, Repr

/-- The type `v1.EnvVar`. -/
structure EnvVar where
  Name : String
  Value : String
  deriving DecidableEq, Repr

/-- The fields of `v1.Container` set by the controller. -/
structure Container where
  Name : String
  Image : String
  Env : List EnvVar
  deriving DecidableEq, Repr

/-- The constant `v1.RestartPolicyNever`; `v1.RestartPolicy` is a string type. -/
def RestartPolicyNever : String := "Never"

/-- The fields of `v1.PodSpec` set by the controller. -/
structure PodSpec where
  Containers : List Container
  RestartPolicy : String
  deriving DecidableEq, Repr

/-- The type `v1.PodTemplateSpec`, reduced to its `Spec`. -/
structure PodTemplateSpec where
  Spec : PodSpec
  deriving DecidableEq, Repr

/-- The type `batchv1.JobSpec`, reduced to its `Template`. -/
structure JobSpec where
  Template : PodTemplateSpec
  deriving DecidableEq, Repr

/-- The type `batchv1.Job`: the object metadata set by the controller (Go embeds
`ObjectMeta`, so these are read as `job.Name`, `job.Namespace`) and the `Spec`. -/
structure Job where
  Name : String
  Namespace : String
  OwnerReferences : List OwnerReference
  Labels : List (String × String)
  Spec : JobSpec
  deriving DecidableEq, Repr

/-- The type `types.NamespacedName`. -/
structure NamespacedName where
  Name : String
  Namespace : String
  deriving DecidableEq, Repr

/-- The type `ctrl.Result`; `ctrl.Result{}` is `{ Requeue := false, RequeueAfter := 0 }`. -/
structure Result where
  Requeue : Bool := false
  RequeueAfter : Nat := 0
  deriving DecidableEq, Repr

/-! ## The cluster and its client -/

/-- The objects stored in the cluster that the controller reads or writes. -/
structure Cluster where
  terraforms : List Terraform
  jobs : List Job
  deriving DecidableEq, Repr

/-- The declaration stored under a key, if any. -/
def Cluster.terraformAt (c : Cluster) (key : NamespacedName) : Option Terraform :=
  c.terraforms.find? (fun t => t.Name == key.Name && t.Namespace == key.Namespace)

/-- The Job stored under a key, if any. -/
def Cluster.jobAt (c : Cluster) (key : NamespacedName) : Option Job :=
  c.jobs.find? (fun j => j.Name == key.Name && j.Namespace == key.Namespace)

/-- The Jobs stored under a key. -/
def Cluster.jobsAt (c : Cluster) (key : NamespacedName) : List Job :=
  c.jobs.filter (fun j => j.Name == key.Name && j.Namespace == key.Namespace)

/-- The errors injected into the three client calls of one `Reconcile` run:
`none` lets the call answer from the cluster state, `some e` makes it fail
with `e` (a timeout, a refused connection, a stale read, a lost race). -/
structure Faults where
  getTerraform : Option ApiError
  getJob : Option ApiError
  create : Option ApiError
  deriving DecidableEq, Repr

/-- The run in which every client call answers from the cluster state. -/
def noFaults : Faults :=
  { getTerraform := none, getJob := none, create := none }

/-- A call issued on the embedded `client.Client`.  `Reconcile` issues `Get`
and `Create` only; the other writing verbs of the interface are listed so that
their absence can be stated. -/
inductive Call where
  | getTerraform (key : NamespacedName)
  | getJob (key : NamespacedName)
  | create (job : Job)
  | update (job : Job)
  | delete (job : Job)
  | patch (job : Job)
  deriving DecidableEq, Repr

/-- Whether a call is `Create`. -/
def Call.isCreate : Call → Bool
  | .create _ => true
  | _ => false

/-- Whether a call writes to the cluster. -/
def Call.isMutation : Call → Bool
  | .getTerraform _ => false
  | .getJob _ => false
  | _ => true

/-- The call `r.Get(ctx, key, terraform)`: the injected error, else the stored
declaration, else `NotFound`. -/
def clientGetTerraform (fault : Option ApiError) (c : Cluster) (key : NamespacedName) :
    Except ApiError Terraform :=
  match fault with
  | some e => .error e
  | none =>
    match c.terraformAt key with
    | some t => .ok t
    | none => .error .notFound

/-- The call `r.Get(ctx, key, terraformJob)`: the injected error, else the stored
Job, else `NotFound`. -/
def clientGetJob (fault : Option ApiError) (c : Cluster) (key : NamespacedName) :
    Except ApiError Job :=
  match fault with
  | some e => .error e
  | none =>
    match c.jobAt key with
    | some j => .ok j
    | none => .error .notFound

/-- The call `r.Create(ctx, job)`: the injected error, else `AlreadyExists` when a
Job is stored under the same name and namespace, else the Job is added.  The
validation of the object by the server is not modelled: a Job with an empty
name is stored like any other. -/
def clientCreate (fault : Option ApiError) (c : Cluster) (job : Job) : Except ApiError Cluster :=
  match fault with
  | some e => .error e
  | none =>
    match c.jobAt { Name := job.Name, Namespace := job.Namespace } with
    | some _ => .error .alreadyExists
    | none => .ok { c with jobs := c.jobs ++ [job] }

/-! ## The controller -/

/-- The function `TerraformReconciler.JobForTerraform`. -/
def JobForTerraform (terraform : Terraform) : Job :=
  { Name := terraform.Name
    Namespace := terraform.Namespace
    OwnerReferences :=
      [{ APIVersion := "iac.terraoperator.com/v1alpha1"
         Kind := "Terraform"
         Name := terraform.Name
         UID := terraform.UID }]
    Labels := [("createdby", "terraoperator"), ("terraoperatorObjectName", terraform.Name)]
    Spec :=
      { Template :=
          { Spec :=
              { Containers :=
                  [{ Name := "terra-operator-runner"
                     Image := "brookatlas/terra-operator:latest"
                     Env := [{ Name := "MODULEPATH", Value := terraform.Spec.ModulePath }] }]
                RestartPolicy := RestartPolicyNever } } } }

/-- What one run of `Reconcile` returns and leaves behind. -/
structure ReconcileOutcome where
  result : Result
  err : Option ApiError
  cluster : Cluster
  calls : List Call
  deriving DecidableEq, Repr

/-- The function `TerraformReconciler.Reconcile`.

* The first `Get` fills `terraform`; when it fails the variable keeps its zero
  value.  Only a `NotFound` failure returns; any other failure falls through.
* The second `Get` looks the Job up under `terraform.Name`, `terraform.Namespace`.
  Only a `NotFound` failure leads to `Create`; a found Job or any other failure
  leads to the final `return ctrl.Result{}, nil`.
* A failed `Create` returns its error, whatever it is. -/
def Reconcile (f : Faults) (c : Cluster) (req : NamespacedName) : ReconcileOutcome :=
  let fetched := clientGetTerraform f.getTerraform c req
  let calls1 := [Call.getTerraform req]
  let fetchNotFound : Bool :=
    match fetched with
    | .error e => IsNotFound e
    | .ok _ => false
  if fetchNotFound then
    { result := {}, err := none, cluster := c, calls := calls1 }
  else
    let terraform : Terraform :=
      match fetched with
      | .ok t => t
      | .error _ => Terraform.zero
    let key : NamespacedName := { Name := terraform.Name, Namespace := terraform.Namespace }
    let calls2 := calls1 ++ [Call.getJob key]
    let jobNotFound : Bool :=
      match clientGetJob f.getJob c key with
      | .error e => IsNotFound e
      | .ok _ => false
    if jobNotFound then
      let job := JobForTerraform terraform
      match clientCreate f.create c job with
      | .error e =>
        { result := {}, err := some e, cluster := c, calls := calls2 ++ [Call.create job] }
      | .ok c2 =>
        { result := {}, err := none, cluster := c2, calls := calls2 ++ [Call.create job] }
    else
      { result := {}, err := none, cluster := c, calls := calls2 }

/-- The number of `Create` calls in a list of calls. -/
def createCount (calls : List Call) : Nat :=
  (calls.filter Call.isCreate).length

/-! ## Sample clusters and runs -/

/-- A declaration on which the controller is tried. -/
def sampleDecl : Terraform :=
  { Name := "web", Namespace := "default", UID := "uid-1"
    Spec := { ModulePath := "https://example/repo.git", Version := "1.6.0", Variables := [("region", "us-east-1")] } }

/-- A cluster that stores `sampleDecl` and no Job. -/
def sampleCluster : Cluster :=
  { terraforms := [sampleDecl], jobs := [] }

/-- The declaration `sampleDecl` after its module path and version were edited. -/
def editedDecl : Terraform :=
  { Name := "web", Namespace := "default", UID := "uid-1"
    Spec := { ModulePath := "https://example/other.git", Version := "1.7.0", Variables := [] } }

/-- A cluster that stores the edited declaration and the Job built from the
declaration before the edit. -/
def clusterWithJob : Cluster :=
  { terraforms := [editedDecl], jobs := [JobForTerraform sampleDecl] }

/-- The run whose `Create` call is answered with `AlreadyExists`. -/
def conflictOnCreate : Faults :=
  { getTerraform := none, getJob := none, create := some .alreadyExists }

/-- The run whose Job lookup is answered `NotFound` although the Job is stored:
the lookup was served before a concurrent run created the Job. -/
def staleLookup : Faults :=
  { getTerraform := none, getJob := some .notFound, create := none }

/-- The run whose Job lookup fails with an unexpected error. -/
def lookupTimeout : Faults :=
  { getTerraform := none, getJob := some (.other "timeout"), create := none }

/-- The run whose declaration fetch fails with an unexpected error. -/
def fetchTimeout : Faults :=
  { getTerraform := some (.other "timeout"), getJob := none, create := none }

end Controller

namespace Agent

/-! ## Data model -/

/-- The type `TerraformRequest`.  The fields carry `json` tags only, so a body
that omits a field decodes with that field at its zero value.  `Variables` is a
Go map; it is kept as the list of its entries in the order of iteration. -/
structure TerraformRequest where
  Version : String
  ModulePath : String
  Variables : List (String × String)
  deriving DecidableEq, Repr

/-- A Go `map[string]string` as the list of its entries. -/
abbrev VersionMap := List (String × String)

/-- The read `m[k]`, with `none` for an absent key. -/
def mapGet (m : VersionMap) (k : String) : Option String :=
  m.lookup k

/-- The assignment `m[k] = v`: the entry of `k` is replaced or added. -/
def mapSet (m : VersionMap) (k v : String) : VersionMap :=
  (k, v) :: m.filter (fun e => e.1 != k)

/-- The answers of the collaborators called by the agent.  An error return is
`none` or `false`; the error values themselves are only logged.

* `newVersion s`: whether `version.NewVersion(s)` returns a nil error;
* `install s`: `installer.Install` for the exact version `s`, the executable path;
* `mkdirTemp dirs`: `os.MkdirTemp("", "cloned-terraform-module")` when the
  directories `dirs` exist, the name of the new directory;
* `plainClone dir url`: `git.PlainClone(dir, false, ...)` with `URL: url`;
* `chdir dir`: `os.Chdir(dir)`;
* `init dir execPath`: `terraform.Init` on the handle made from `dir`, `execPath`;
* `planJSON dir execPath args`: `terraform.PlanJSON` with the variable options. -/
structure World where
  newVersion : String → Bool
  install : String → Option String
  mkdirTemp : List String → Option String
  plainClone : String → String → Bool
  chdir : String → Bool
  init : String → String → Bool
  planJSON : String → String → List String → Bool

/-- The state the agent reads and writes: the package variable
`installedVersions`, the workspace directories present on disk, and the working
directory of the process. -/
structure Process where
  installedVersions : VersionMap
  dirs : List String
  cwd : String
  deriving DecidableEq, Repr

/-- A collaborator call issued by the agent. -/
inductive Step where
  | newVersion (versionString : String)
  | install (versionString : String)
  | mkdirTemp (created : Option String)
  | plainClone (dir url : String)
  | chdir (dir : String)
  | newTerraform (dir execPath : String)
  | init (dir execPath : String)
  | planJSON (dir execPath : String) (args : List String)
  deriving DecidableEq, Repr

/-- How a Go function call ends: it returns, it panics (`version.Must`), or the
process ends (`log.Fatalf` prints and calls `os.Exit(1)`). -/
inductive Outcome where
  | returned
  | panicked
  | exited
  deriving DecidableEq, Repr

/-- How a call of `installTerraform` ends. -/
inductive InstallOutcome where
  | returnedNil
  | returnedErr
  | panicked
  | exited
  deriving DecidableEq, Repr

/-- What a call of `installTerraform` leaves behind. -/
structure InstallResult where
  outcome : InstallOutcome
  installedVersions : VersionMap
  steps : List Step
  deriving DecidableEq, Repr

/-- What the handler wrote on the gin context: the status and the `error` field
of the JSON body, if a body was written. -/
structure Response where
  status : Nat
  error : Option String
  deriving DecidableEq, Repr

/-- What one run of the handler leaves behind.  `response = none` means that the
handler wrote nothing on the context. -/
structure HandlerResult where
  state : Process
  response : Option Response
  outcome : Outcome
  steps : List Step
  deriving DecidableEq, Repr

/-! ## The agent -/

/-- The function `installTerraform`.

* `version.Must` panics when `version.NewVersion` returned an error.
* When `Install` fails the function calls `log.Fatalf`, which ends the process;
  the `return err` below it is never reached.
* Otherwise the path is stored under `versionString` and nil is returned. -/
def installTerraform (w : World) (m : VersionMap) (versionString : String) : InstallResult :=
  if w.newVersion versionString then
    match w.install versionString with
    | none =>
      { outcome := .exited, installedVersions := m
        steps := [.newVersion versionString, .install versionString] }
    | some execPath =>
      { outcome := .returnedNil, installedVersions := mapSet m versionString execPath
        steps := [.newVersion versionString, .install versionString] }
  else
    { outcome := .panicked, installedVersions := m, steps := [.newVersion versionString] }

/-- Lines 58 to 111 of `terraformPlan`: everything after toolchain resolution.
`steps` are the calls issued so far.

* Every failure branch writes its response and then calls `log.Fatalf`, which
  ends the process; the `return` below it is never reached.
* The error of `tfexec.NewTerraform` is overwritten by that of `Init` without
  being read.
* A failed `PlanJSON` writes the same text as a failed `Init`.
* The last line prints and writes no response.  No line removes a directory. -/
def planInWorkspace (w : World) (s : Process) (request : TerraformRequest) (steps : List Step) :
    HandlerResult :=
  let execPath := (mapGet s.installedVersions request.Version).getD ""
  match w.mkdirTemp s.dirs with
  | none =>
    { state := s
      response := some ⟨500, some "error creating a new temporary directory"⟩
      outcome := .exited
      steps := steps ++ [.mkdirTemp none] }
  | some dir =>
    let s1 : Process := { s with dirs := dir :: s.dirs }
    let steps1 := steps ++ [.mkdirTemp (some dir), .plainClone dir request.ModulePath]
    if !(w.plainClone dir request.ModulePath) then
      { state := s1
        response := some ⟨500, some "error cloning the repository"⟩
        outcome := .exited
        steps := steps1 }
    else if !(w.chdir dir) then
      { state := s1
        response := some ⟨500, some "error moving to repo directory"⟩
        outcome := .exited
        steps := steps1 ++ [.chdir dir] }
    else
      let s2 : Process := { s1 with cwd := dir }
      let args := request.Variables.map (fun kv => kv.1 ++ ":" ++ kv.2)
      let steps2 := steps1 ++ [.chdir dir, .newTerraform dir execPath, .init dir execPath]
      if !(w.init dir execPath) then
        { state := s2
          response := some ⟨500, some "error running init"⟩
          outcome := .exited
          steps := steps2 }
      else if !(w.planJSON dir execPath args) then
        { state := s2
          response := some ⟨500, some "error running init"⟩
          outcome := .exited
          steps := steps2 ++ [.planJSON dir execPath args] }
      else
        { state := s2
          response := none
          outcome := .returned
          steps := steps2 ++ [.planJSON dir execPath args] }

/-- The handler `terraformPlan`.  `bound` is the outcome of `c.ShouldBindJSON`:
`none` when it returned an error, else the decoded request. -/
def terraformPlan (w : World) (s : Process) (bound : Option TerraformRequest) : HandlerResult :=
  match bound with
  | none =>
    { state := s, response := some ⟨400, some "invalid schema"⟩, outcome := .returned, steps := [] }
  | some request =>
    match mapGet s.installedVersions request.Version with
    | some _ => planInWorkspace w s request []
    | none =>
      let r := installTerraform w s.installedVersions request.Version
      let s1 : Process := { s with installedVersions := r.installedVersions }
      match r.outcome with
      | .panicked => { state := s1, response := none, outcome := .panicked, steps := r.steps }
      | .exited => { state := s1, response := none, outcome := .exited, steps := r.steps }
      | .returnedErr =>
        { state := s1, response := some ⟨500, none⟩, outcome := .exited, steps := r.steps }
      | .returnedNil => planInWorkspace w s1 request r.steps

/-- Whether a step is a call of `installer.Install`. -/
def Step.isInstall : Step → Bool
  | .install _ => true
  | _ => false

/-- Whether a step is a call of `terraform.PlanJSON`. -/
def Step.isPlan : Step → Bool
  | .planJSON _ _ _ => true
  | _ => false

/-- The executable path a step runs, for the steps that run one. -/
def Step.execPath? : Step → Option String
  | .newTerraform _ e => some e
  | .init _ e => some e
  | .planJSON _ e _ => some e
  | _ => none

/-- The number of installations in a list of steps. -/
def installCount (steps : List Step) : Nat :=
  (steps.filter Step.isInstall).length

/-! ## Sample worlds -/

/-- A world in which every collaborator succeeds, except that only `1.6.0` is
a version, the empty URL cannot be cloned and `missing.git` does not exist. -/
def sampleWorld : World :=
  { newVersion := fun v => v == "1.6.0"
    install := fun v => some ("/bin/terraform_" ++ v)
    mkdirTemp := fun dirs => some ("/tmp/cloned-terraform-module" ++ toString dirs.length)
    plainClone := fun _ url => url != "" && url != "https://example/missing.git"
    chdir := fun _ => true
    init := fun _ _ => true
    planJSON := fun _ _ _ => true }

/-- A process that has served no request. -/
def freshProcess : Process :=
  { installedVersions := [], dirs := [], cwd := "/" }

/-- The world `sampleWorld` with a failing `Init`. -/
def brokenInitWorld : World :=
  { sampleWorld with init := fun _ _ => false }

/-- The world `sampleWorld` with a failing `PlanJSON`. -/
def brokenPlanWorld : World :=
  { sampleWorld with planJSON := fun _ _ _ => false }

/-- The world `sampleWorld` with a failing installer. -/
def offlineWorld : World :=
  { sampleWorld with install := fun _ => none }

/-- A process that has `1.6.0` installed. -/
def warmProcess : Process :=
  { installedVersions := [("1.6.0", "/opt/terraform_1.6.0")], dirs := ["/tmp/cloned-terraform-module0"], cwd := "/" }

/-- A well-formed request. -/
def sampleRequest : TerraformRequest :=
  { Version := "1.6.0", ModulePath := "https://example/repo.git", Variables := [("region", "us-east-1")] }

end Agent

/-! # The reconciler: theorems -/

namespace Controller

/-- The declaration found under a key carries the name and namespace of the key. -/
theorem terraformAt_key {c : Cluster} {key : NamespacedName} {t : Terraform}
    (h : c.terraformAt key = some t) : t.Name = key.Name ∧ t.Namespace = key.Namespace := by
  unfold Cluster.terraformAt at h
  have := List.find?_some h
  simpa using this

/-- When the lookup finds no Job under a key, no Job is stored under it. -/
theorem jobsAt_of_jobAt_none {c : Cluster} {key : NamespacedName}
    (h : c.jobAt key = none) : c.jobsAt key = [] := by
  unfold Cluster.jobAt at h
  unfold Cluster.jobsAt
  rw [List.find?_eq_none] at h
  rw [List.filter_eq_nil_iff]
  exact h

/-- The first run on a cluster that stores `D` and no Job for it. -/
theorem Reconcile_missing_job (c : Cluster) (D : Terraform)
    (hD : c.terraformAt ⟨D.Name, D.Namespace⟩ = some D)
    (hJ : c.jobAt ⟨D.Name, D.Namespace⟩ = none) :
    Reconcile noFaults c ⟨D.Name, D.Namespace⟩ =
      { result := {}, err := none
        cluster := { c with jobs := c.jobs ++ [JobForTerraform D] }
        calls := [Call.getTerraform ⟨D.Name, D.Namespace⟩, Call.getJob ⟨D.Name, D.Namespace⟩,
                  Call.create (JobForTerraform D)] } := by
  have hJ2 : c.jobAt ⟨(JobForTerraform D).Name, (JobForTerraform D).Namespace⟩ = none := hJ
  simp [Reconcile, clientGetTerraform, clientGetJob, clientCreate, noFaults, hD, hJ, hJ2, IsNotFound]

/-- After the Job of `D` is added, the lookup under the key of `D` finds it. -/
theorem jobAt_after_create (c : Cluster) (D : Terraform)
    (hJ : c.jobAt ⟨D.Name, D.Namespace⟩ = none) :
    Cluster.jobAt { c with jobs := c.jobs ++ [JobForTerraform D] } ⟨D.Name, D.Namespace⟩
      = some (JobForTerraform D) := by
  unfold Cluster.jobAt at hJ ⊢
  simp [List.find?_append, hJ, JobForTerraform]

/-- After the Job of `D` is added, it is the only Job stored under the key of `D`. -/
theorem jobsAt_after_create (c : Cluster) (D : Terraform)
    (hJ : c.jobAt ⟨D.Name, D.Namespace⟩ = none) :
    Cluster.jobsAt { c with jobs := c.jobs ++ [JobForTerraform D] } ⟨D.Name, D.Namespace⟩
      = [JobForTerraform D] := by
  have h0 := jobsAt_of_jobAt_none hJ
  unfold Cluster.jobsAt at h0 ⊢
  simp [List.filter_append, h0, JobForTerraform]

/-- The run on a cluster in which the lookup finds a Job for the declaration. -/
theorem Reconcile_found_job (c : Cluster) (D : Terraform) (j : Job)
    (hD : c.terraformAt ⟨D.Name, D.Namespace⟩ = some D)
    (hJ : c.jobAt ⟨D.Name, D.Namespace⟩ = some j) :
    Reconcile noFaults c ⟨D.Name, D.Namespace⟩ =
      { result := {}, err := none, cluster := c
        calls := [Call.getTerraform ⟨D.Name, D.Namespace⟩, Call.getJob ⟨D.Name, D.Namespace⟩] } := by
  simp [Reconcile, clientGetTerraform, clientGetJob, noFaults, hD, hJ]

/-- C1. For a declaration `D` stored in the cluster and no Job stored under
`(D.Name, D.Namespace)`, two runs of `Reconcile` in a row, every client call
answering from the cluster state, both return a nil error, issue exactly one
`Create` in total (in the first run, of `JobForTerraform D`), and leave a
cluster whose Jobs are the old ones followed by that Job: exactly one Job is
stored under the key of `D`.  The second run finds that Job, creates nothing and
changes nothing. -/
theorem reconcile_twice_creates_once (c : Cluster) (D : Terraform)
    (hD : c.terraformAt ⟨D.Name, D.Namespace⟩ = some D)
    (hJ : c.jobAt ⟨D.Name, D.Namespace⟩ = none) :
    (Reconcile noFaults c ⟨D.Name, D.Namespace⟩).err = none ∧
    (Reconcile noFaults (Reconcile noFaults c ⟨D.Name, D.Namespace⟩).cluster
        ⟨D.Name, D.Namespace⟩).err = none ∧
    createCount ((Reconcile noFaults c ⟨D.Name, D.Namespace⟩).calls ++
      (Reconcile noFaults (Reconcile noFaults c ⟨D.Name, D.Namespace⟩).cluster
        ⟨D.Name, D.Namespace⟩).calls) = 1 ∧
    (Reconcile noFaults c ⟨D.Name, D.Namespace⟩).calls.filter Call.isCreate
      = [Call.create (JobForTerraform D)] ∧
    createCount (Reconcile noFaults (Reconcile noFaults c ⟨D.Name, D.Namespace⟩).cluster
        ⟨D.Name, D.Namespace⟩).calls = 0 ∧
    (Reconcile noFaults (Reconcile noFaults c ⟨D.Name, D.Namespace⟩).cluster
        ⟨D.Name, D.Namespace⟩).cluster
      = { c with jobs := c.jobs ++ [JobForTerraform D] } ∧
    (Reconcile noFaults (Reconcile noFaults c ⟨D.Name, D.Namespace⟩).cluster
        ⟨D.Name, D.Namespace⟩).cluster.jobsAt ⟨D.Name, D.Namespace⟩
      = [JobForTerraform D] := by
  have h1 := Reconcile_missing_job c D hD hJ
  have hD2 : Cluster.terraformAt { c with jobs := c.jobs ++ [JobForTerraform D] }
      ⟨D.Name, D.Namespace⟩ = some D := hD
  have h2 := Reconcile_found_job { c with jobs := c.jobs ++ [JobForTerraform D] } D
    (JobForTerraform D) hD2 (jobAt_after_create c D hJ)
  rw [h1]
  dsimp only
  rw [h2]
  refine ⟨?_, ?_, ?_, ?_, ?_, ?_, ?_⟩
  · trivial
  · trivial
  · simp [createCount, Call.isCreate]
  · simp [Call.isCreate]
  · simp [createCount, Call.isCreate]
  · rfl
  · exact jobsAt_after_create c D hJ

/-- C1 at `sampleCluster`: one `Create` over the two runs, one Job at the end. -/
theorem reconcile_twice_creates_once_witness :
    sampleCluster.terraformAt ⟨sampleDecl.Name, sampleDecl.Namespace⟩ = some sampleDecl ∧
    sampleCluster.jobAt ⟨sampleDecl.Name, sampleDecl.Namespace⟩ = none ∧
    createCount ((Reconcile noFaults sampleCluster ⟨"web", "default"⟩).calls ++
      (Reconcile noFaults (Reconcile noFaults sampleCluster ⟨"web", "default"⟩).cluster
        ⟨"web", "default"⟩).calls) = 1 ∧
    (Reconcile noFaults (Reconcile noFaults sampleCluster ⟨"web", "default"⟩).cluster
        ⟨"web", "default"⟩).cluster.jobs = [JobForTerraform sampleDecl] :=
  ⟨by decide, by decide,
   (reconcile_twice_creates_once sampleCluster sampleDecl (by decide) (by decide)).2.2.1,
   congrArg Cluster.jobs
     (reconcile_twice_creates_once sampleCluster sampleDecl (by decide) (by decide)).2.2.2.2.2.1⟩

/-- C2. When a Job is stored under `(D.Name, D.Namespace)`, the declaration fetch
does not fail with an unexpected error and the lookup does not miss the Job,
`Reconcile` for `D` returns the empty result and a nil error, leaves the cluster
as it was, and issues no writing call (no `Create`, `Update`, `Delete`,
`Patch`).  The declarations stored in the cluster are arbitrary, so this holds
whatever the spec fields of the declaration now are. -/
theorem reconcile_existing_job_untouched (f : Faults) (c : Cluster) (D : Terraform) (j : Job)
    (hfetch : ∀ e, f.getTerraform = some e → IsNotFound e = true)
    (hlookup : ∀ e, f.getJob = some e → IsNotFound e = false)
    (hJ : c.jobAt ⟨D.Name, D.Namespace⟩ = some j) :
    (Reconcile f c ⟨D.Name, D.Namespace⟩).result = {} ∧
    (Reconcile f c ⟨D.Name, D.Namespace⟩).err = none ∧
    (Reconcile f c ⟨D.Name, D.Namespace⟩).cluster = c ∧
    (∀ call ∈ (Reconcile f c ⟨D.Name, D.Namespace⟩).calls, call.isMutation = false) ∧
    createCount (Reconcile f c ⟨D.Name, D.Namespace⟩).calls = 0 := by
  cases hf : f.getTerraform with
  | some e =>
    have he := hfetch e hf
    simp [Reconcile, clientGetTerraform, hf, he, Call.isMutation, createCount, Call.isCreate]
  | none =>
    cases ht : c.terraformAt ⟨D.Name, D.Namespace⟩ with
    | none =>
      simp [Reconcile, clientGetTerraform, hf, ht, IsNotFound, Call.isMutation, createCount,
        Call.isCreate]
    | some t =>
      obtain ⟨hn, hs⟩ := terraformAt_key ht
      simp only at hn hs
      cases hg : f.getJob with
      | some e =>
        have he := hlookup e hg
        simp [Reconcile, clientGetTerraform, clientGetJob, hf, ht, hg, he, Call.isMutation,
          createCount, Call.isCreate]
      | none =>
        simp [Reconcile, clientGetTerraform, clientGetJob, hf, ht, hg, hn, hs, hJ,
          Call.isMutation, createCount, Call.isCreate]

/-- C2 at `clusterWithJob`, whose declaration was edited after the Job was built. -/
theorem reconcile_existing_job_untouched_witness :
    clusterWithJob.jobAt ⟨editedDecl.Name, editedDecl.Namespace⟩ = some (JobForTerraform sampleDecl) ∧
    (Reconcile noFaults clusterWithJob ⟨"web", "default"⟩).err = none ∧
    (Reconcile noFaults clusterWithJob ⟨"web", "default"⟩).cluster = clusterWithJob ∧
    createCount (Reconcile noFaults clusterWithJob ⟨"web", "default"⟩).calls = 0 :=
  ⟨by decide,
   (reconcile_existing_job_untouched noFaults clusterWithJob editedDecl (JobForTerraform sampleDecl)
      (by simp [noFaults]) (by simp [noFaults]) (by decide)).2.1,
   (reconcile_existing_job_untouched noFaults clusterWithJob editedDecl (JobForTerraform sampleDecl)
      (by simp [noFaults]) (by simp [noFaults]) (by decide)).2.2.1,
   (reconcile_existing_job_untouched noFaults clusterWithJob editedDecl (JobForTerraform sampleDecl)
      (by simp [noFaults]) (by simp [noFaults]) (by decide)).2.2.2.2⟩

/-- C3, as stated, fails: with `sampleDecl` stored, no Job found by the lookup
and `Create` answered with `AlreadyExists`, `Reconcile` returns that error, not
nil. -/
theorem reconcile_conflict_not_success :
    (Reconcile conflictOnCreate sampleCluster ⟨"web", "default"⟩).err = some .alreadyExists ∧
    (Reconcile conflictOnCreate sampleCluster ⟨"web", "default"⟩).err ≠ none := by
  decide

/-- C3, amended. When the fetch returns `D`, the lookup finds no Job (it answers
`NotFound`) and `Create` fails with an error `e`, a create-conflict included,
`Reconcile` returns the empty result together with `e` itself, issues no call
after the `Create`, and leaves the cluster as it was. -/
theorem reconcile_create_error_returned (f : Faults) (c : Cluster) (req : NamespacedName)
    (D : Terraform) (e0 e : ApiError)
    (hfetch : clientGetTerraform f.getTerraform c req = .ok D)
    (hlookup : clientGetJob f.getJob c ⟨D.Name, D.Namespace⟩ = .error e0)
    (hmiss : IsNotFound e0 = true)
    (hcreate : clientCreate f.create c (JobForTerraform D) = .error e) :
    Reconcile f c req =
      { result := {}, err := some e, cluster := c
        calls := [Call.getTerraform req, Call.getJob ⟨D.Name, D.Namespace⟩,
                  Call.create (JobForTerraform D)] } := by
  simp [Reconcile, hfetch, hlookup, hmiss, hcreate]

/-- C3, amended, at `clusterWithJob` with a lookup that missed the Job: `Create`
answers `AlreadyExists` from the cluster state and that error is returned. -/
theorem reconcile_create_error_returned_witness :
    clientGetTerraform staleLookup.getTerraform clusterWithJob ⟨"web", "default"⟩ = .ok editedDecl ∧
    (Reconcile staleLookup clusterWithJob ⟨"web", "default"⟩).err = some .alreadyExists ∧
    (Reconcile staleLookup clusterWithJob ⟨"web", "default"⟩).cluster = clusterWithJob :=
  ⟨rfl,
   congrArg ReconcileOutcome.err
     (reconcile_create_error_returned staleLookup clusterWithJob ⟨"web", "default"⟩ editedDecl
       .notFound .alreadyExists rfl rfl rfl rfl),
   congrArg ReconcileOutcome.cluster
     (reconcile_create_error_returned staleLookup clusterWithJob ⟨"web", "default"⟩ editedDecl
       .notFound .alreadyExists rfl rfl rfl rfl)⟩

/-- C4, evaluated. With `sampleDecl` stored and the Job lookup failing with a
timeout, `Reconcile` returns a nil error.  With the declaration fetch failing
with a timeout, `Reconcile` goes on with the unpopulated declaration: it looks
a Job up under the empty name and namespace and, the lookup answering
`NotFound`, issues `Create` for `JobForTerraform` of the zero value, whatever
`Create` then answers; when `Create` succeeds, as it does in `clientCreate`,
which validates no object, the error returned is nil. -/
theorem reconcile_swallows_unexpected_errors :
    Reconcile lookupTimeout sampleCluster ⟨"web", "default"⟩ =
      { result := {}, err := none, cluster := sampleCluster
        calls := [Call.getTerraform ⟨"web", "default"⟩, Call.getJob ⟨"web", "default"⟩] } ∧
    (∀ answer : Option ApiError,
      (Reconcile { getTerraform := some (.other "timeout"), getJob := none, create := answer }
        sampleCluster ⟨"web", "default"⟩).calls =
        [Call.getTerraform ⟨"web", "default"⟩, Call.getJob ⟨"", ""⟩,
         Call.create (JobForTerraform Terraform.zero)]) ∧
    Reconcile fetchTimeout sampleCluster ⟨"web", "default"⟩ =
      { result := {}, err := none
        cluster := { terraforms := [sampleDecl], jobs := [JobForTerraform Terraform.zero] }
        calls := [Call.getTerraform ⟨"web", "default"⟩, Call.getJob ⟨"", ""⟩,
                  Call.create (JobForTerraform Terraform.zero)] } := by
  refine ⟨by decide, ?_, by decide⟩
  intro answer
  cases answer with
  | none => decide
  | some e =>
    have hJ : sampleCluster.jobAt ⟨"", ""⟩ = none := by decide
    simp [Reconcile, clientGetTerraform, clientGetJob, clientCreate, IsNotFound, Terraform.zero, hJ]

/-- C5. `JobForTerraform D` carries the name and namespace of `D`, exactly one
owner reference (API version `iac.terraoperator.com/v1alpha1`, kind
`Terraform`, name `D.Name`, UID `D.UID`), exactly one container, whose
environment is the single entry `MODULEPATH` with value `D.Spec.ModulePath`,
and restart policy `Never`.  The Job is a function of `D` alone (the receiver,
the clock and the cluster are not read), and declarations with equal name and
namespace get equal Job names and namespaces. -/
theorem jobForTerraform_shape (D : Terraform) :
    (JobForTerraform D).Name = D.Name ∧
    (JobForTerraform D).Namespace = D.Namespace ∧
    (JobForTerraform D).OwnerReferences =
      [{ APIVersion := "iac.terraoperator.com/v1alpha1", Kind := "Terraform"
         Name := D.Name, UID := D.UID }] ∧
    (∃ ctr, (JobForTerraform D).Spec.Template.Spec.Containers = [ctr] ∧
      ctr.Env = [{ Name := "MODULEPATH", Value := D.Spec.ModulePath }]) ∧
    (JobForTerraform D).Spec.Template.Spec.RestartPolicy = "Never" ∧
    (∀ D2 : Terraform, D2.Name = D.Name → D2.Namespace = D.Namespace →
      (JobForTerraform D2).Name = (JobForTerraform D).Name ∧
      (JobForTerraform D2).Namespace = (JobForTerraform D).Namespace) := by
  refine ⟨rfl, rfl, rfl, ⟨_, rfl, rfl⟩, rfl, ?_⟩
  intro D2 h1 h2
  exact ⟨h1, h2⟩

/-- C5 at `sampleDecl` and `editedDecl`, which share name and namespace. -/
theorem jobForTerraform_shape_witness :
    (JobForTerraform sampleDecl).OwnerReferences =
      [{ APIVersion := "iac.terraoperator.com/v1alpha1", Kind := "Terraform"
         Name := "web", UID := "uid-1" }] ∧
    (JobForTerraform editedDecl).Name = (JobForTerraform sampleDecl).Name ∧
    (JobForTerraform editedDecl).Namespace = (JobForTerraform sampleDecl).Namespace :=
  ⟨(jobForTerraform_shape sampleDecl).2.2.1,
   (jobForTerraform_shape sampleDecl).2.2.2.2.2 editedDecl rfl rfl⟩

end Controller

/-! # The execution agent: theorems -/

namespace Agent

/-- Reading the key just assigned gives the value assigned. -/
theorem mapGet_mapSet_self (m : VersionMap) (k v : String) : mapGet (mapSet m k v) k = some v := by
  simp [mapGet, mapSet, List.lookup]

/-- Dropping the entries of one key does not change the lookup of another key. -/
theorem lookup_filter_ne (m : VersionMap) (k k2 : String) (h : k2 ≠ k) :
    List.lookup k2 (m.filter (fun e => e.1 != k)) = List.lookup k2 m := by
  induction m with
  | nil => rfl
  | cons e m ih =>
    obtain ⟨a, b⟩ := e
    by_cases hak : a = k
    · subst hak
      have h2 : (k2 == a) = false := by simpa using h
      simp [List.filter, List.lookup, h2, ih]
    · have h3 : (a != k) = true := by simpa using hak
      simp only [List.filter, h3, List.lookup]
      rw [ih]

/-- Assigning one key does not change what is read under another key. -/
theorem mapGet_mapSet_ne (m : VersionMap) (k k2 v : String) (h : k2 ≠ k) :
    mapGet (mapSet m k v) k2 = mapGet m k2 := by
  have h2 : (k2 == k) = false := by simpa using h
  simp [mapGet, mapSet, List.lookup, h2, lookup_filter_ne m k k2 h]

/-- The part of the handler after toolchain resolution leaves the version map alone. -/
theorem planInWorkspace_installedVersions (w : World) (s : Process) (request : TerraformRequest)
    (steps : List Step) :
    (planInWorkspace w s request steps).state.installedVersions = s.installedVersions := by
  unfold planInWorkspace
  split
  · rfl
  · dsimp only
    split
    · rfl
    · split
      · rfl
      · split
        · rfl
        · split <;> rfl

/-- The steps of the part after toolchain resolution: the steps so far, then
steps that install nothing and run the path stored for the requested version. -/
theorem planInWorkspace_steps (w : World) (s : Process) (request : TerraformRequest)
    (steps : List Step) :
    ∃ tail, (planInWorkspace w s request steps).steps = steps ++ tail ∧
      (∀ st ∈ tail, st.isInstall = false) ∧
      (∀ st ∈ tail, ∀ e, st.execPath? = some e →
        e = (mapGet s.installedVersions request.Version).getD "") := by
  unfold planInWorkspace
  split
  · exact ⟨_, rfl, by simp [Step.isInstall], by simp [Step.execPath?]⟩
  · dsimp only
    split
    · exact ⟨_, rfl, by simp [Step.isInstall], by simp [Step.execPath?]⟩
    · split
      · refine ⟨_, List.append_assoc _ _ _, by simp [Step.isInstall], by simp [Step.execPath?]⟩
      · split
        · refine ⟨_, List.append_assoc _ _ _, by simp [Step.isInstall], ?_⟩
          simp [Step.execPath?]
        · split
          · refine ⟨_, by simp only [List.append_assoc]; rfl, by simp [Step.isInstall], ?_⟩
            simp [Step.execPath?]
          · refine ⟨_, by simp only [List.append_assoc]; rfl, by simp [Step.isInstall], ?_⟩
            simp [Step.execPath?]

/-- The part after toolchain resolution, when directory creation, clone and
chdir succeed and `Init` fails. -/
theorem planInWorkspace_init_failure (w : World) (s : Process) (request : TerraformRequest)
    (steps : List Step) (p dir : String)
    (hp : mapGet s.installedVersions request.Version = some p)
    (hdir : w.mkdirTemp s.dirs = some dir)
    (hclone : w.plainClone dir request.ModulePath = true)
    (hchdir : w.chdir dir = true)
    (hinit : w.init dir p = false) :
    planInWorkspace w s request steps =
      { state := { installedVersions := s.installedVersions, dirs := dir :: s.dirs, cwd := dir }
        response := some ⟨500, some "error running init"⟩
        outcome := .exited
        steps := steps ++ [.mkdirTemp (some dir), .plainClone dir request.ModulePath]
          ++ [.chdir dir, .newTerraform dir p, .init dir p] } := by
  simp [planInWorkspace, hp, hdir, hclone, hchdir, hinit]

/-- The handler when `Init` fails.  When toolchain resolution succeeds with path
`p` (the version is cached, or it is not and parsing and installation succeed),
the workspace directory `dir` is created, the clone into it and the chdir
succeed and `Init` fails, the handler never calls `PlanJSON`: `Init` is the last
call it issues, it writes status 500 with the error text `error running init`
on the context, and then `log.Fatalf` ends the process: the handler does not
return. -/
theorem terraformPlan_init_failure (w : World) (s : Process) (request : TerraformRequest)
    (p dir : String)
    (hres : mapGet s.installedVersions request.Version = some p ∨
      (mapGet s.installedVersions request.Version = none ∧
        w.newVersion request.Version = true ∧ w.install request.Version = some p))
    (hdir : w.mkdirTemp s.dirs = some dir)
    (hclone : w.plainClone dir request.ModulePath = true)
    (hchdir : w.chdir dir = true)
    (hinit : w.init dir p = false) :
    (∀ st ∈ (terraformPlan w s (some request)).steps, st.isPlan = false) ∧
    (terraformPlan w s (some request)).steps.getLast? = some (.init dir p) ∧
    (terraformPlan w s (some request)).response = some ⟨500, some "error running init"⟩ ∧
    (terraformPlan w s (some request)).outcome = .exited := by
  rcases hres with hc | ⟨hn, hv, hi⟩
  · have h := planInWorkspace_init_failure w s request [] p dir hc hdir hclone hchdir hinit
    simp [terraformPlan, hc, h, Step.isPlan]
  · have h := planInWorkspace_init_failure w
      { s with installedVersions := mapSet s.installedVersions request.Version p } request
      [.newVersion request.Version, .install request.Version] p dir
      (mapGet_mapSet_self _ _ _) hdir hclone hchdir hinit
    simp [terraformPlan, hn, installTerraform, hv, hi, h, Step.isPlan]

/-- C6, evaluated. For a first request whose toolchain resolution, workspace
creation, clone and chdir succeed and whose `Init` fails, `PlanJSON` is not
called, the handler writes status 500 with the text `error running init` on
the context, and then `log.Fatalf` ends the process: the handler does not
return.  For the same request with `Init` succeeding and `PlanJSON` failing,
the handler writes the very same response before ending the process, so the
response does not tell an init failure from an execution failure. -/
theorem init_failure_ends_process :
    terraformPlan brokenInitWorld freshProcess (some sampleRequest) =
      { state := { installedVersions := [("1.6.0", "/bin/terraform_1.6.0")]
                   dirs := ["/tmp/cloned-terraform-module0"]
                   cwd := "/tmp/cloned-terraform-module0" }
        response := some ⟨500, some "error running init"⟩
        outcome := .exited
        steps := [.newVersion "1.6.0", .install "1.6.0",
                  .mkdirTemp (some "/tmp/cloned-terraform-module0"),
                  .plainClone "/tmp/cloned-terraform-module0" "https://example/repo.git",
                  .chdir "/tmp/cloned-terraform-module0",
                  .newTerraform "/tmp/cloned-terraform-module0" "/bin/terraform_1.6.0",
                  .init "/tmp/cloned-terraform-module0" "/bin/terraform_1.6.0"] } ∧
    (terraformPlan brokenPlanWorld freshProcess (some sampleRequest)).steps.getLast? =
      some (.planJSON "/tmp/cloned-terraform-module0" "/bin/terraform_1.6.0"
        ["region:us-east-1"]) ∧
    (terraformPlan brokenPlanWorld freshProcess (some sampleRequest)).response =
      (terraformPlan brokenInitWorld freshProcess (some sampleRequest)).response ∧
    (terraformPlan brokenPlanWorld freshProcess (some sampleRequest)).outcome = .exited := by
  decide

/-- C7, evaluated. `installTerraform` never returns an error value.  When the
installer fails it ends the process, and so does the handler, without having
written a response.  When the version string does not parse it panics, and the
panic leaves the handler. -/
theorem install_failure_ends_process :
    (∀ (w : World) (m : VersionMap) (v : String),
      (installTerraform w m v).outcome ≠ .returnedErr) ∧
    (installTerraform offlineWorld [] "1.6.0").outcome = .exited ∧
    (terraformPlan offlineWorld freshProcess (some sampleRequest)).outcome = .exited ∧
    (terraformPlan offlineWorld freshProcess (some sampleRequest)).response = none ∧
    (installTerraform sampleWorld [] "not-a-version").outcome = .panicked ∧
    (terraformPlan sampleWorld freshProcess
      (some ⟨"not-a-version", "https://example/repo.git", []⟩)).outcome = .panicked := by
  refine ⟨?_, by decide, by decide, by decide, by decide, by decide⟩
  intro w m v
  unfold installTerraform
  split
  · split <;> simp
  · simp

/-- C8, as stated, fails.  A decoded request with an empty module source and
version `1.6.0` is not answered with status 400: the toolchain is installed, a
workspace directory is created and the clone is attempted, and the response is
the status 500 of the failed clone.  A decoded request with an empty version is
not answered with status 400 either: parsing of the version is attempted and
panics, and the handler writes no response. -/
theorem empty_fields_not_rejected :
    terraformPlan sampleWorld freshProcess (some ⟨"1.6.0", "", []⟩) =
      { state := { installedVersions := [("1.6.0", "/bin/terraform_1.6.0")]
                   dirs := ["/tmp/cloned-terraform-module0"], cwd := "/" }
        response := some ⟨500, some "error cloning the repository"⟩
        outcome := .exited
        steps := [.newVersion "1.6.0", .install "1.6.0",
                  .mkdirTemp (some "/tmp/cloned-terraform-module0"),
                  .plainClone "/tmp/cloned-terraform-module0" ""] } ∧
    terraformPlan sampleWorld freshProcess (some ⟨"", "https://example/repo.git", []⟩) =
      { state := freshProcess, response := none, outcome := .panicked
        steps := [.newVersion ""] } := by
  decide

/-- The directories left by the part after toolchain resolution: the new
directory, when one was created, in front of the old ones. -/
theorem planInWorkspace_dirs (w : World) (s : Process) (request : TerraformRequest)
    (steps : List Step) :
    (planInWorkspace w s request steps).state.dirs =
      match w.mkdirTemp s.dirs with
      | none => s.dirs
      | some dir => dir :: s.dirs := by
  unfold planInWorkspace
  split
  · rfl
  · dsimp only
    split
    · rfl
    · split
      · rfl
      · split
        · rfl
        · split <;> rfl

/-- Every response written by the part after toolchain resolution has status 500. -/
theorem planInWorkspace_response (w : World) (s : Process) (request : TerraformRequest)
    (steps : List Step) (r : Response)
    (h : (planInWorkspace w s request steps).response = some r) : r.status = 500 := by
  unfold planInWorkspace at h
  split at h
  · simp at h; rw [← h]
  · dsimp only at h
    split at h
    · simp at h; rw [← h]
    · split at h
      · simp at h; rw [← h]
      · split at h
        · simp at h; rw [← h]
        · split at h
          · simp at h; rw [← h]
          · simp at h

/-- Once the directory is created the clone is called with the module path of
the request, as it is. -/
theorem planInWorkspace_clone (w : World) (s : Process) (request : TerraformRequest)
    (steps : List Step) (dir : String) (hdir : w.mkdirTemp s.dirs = some dir) :
    Step.mkdirTemp (some dir) ∈ (planInWorkspace w s request steps).steps ∧
    Step.plainClone dir request.ModulePath ∈ (planInWorkspace w s request steps).steps := by
  unfold planInWorkspace
  rw [hdir]
  dsimp only
  split
  · simp
  · split
    · simp
    · split
      · simp
      · split <;> simp

/-- The handler in terms of the part after toolchain resolution, when
resolution succeeds. -/
theorem terraformPlan_resolved (w : World) (s : Process) (request : TerraformRequest)
    (hres : mapGet s.installedVersions request.Version ≠ none ∨
      (w.newVersion request.Version = true ∧ w.install request.Version ≠ none)) :
    ∃ s1 steps, s1.dirs = s.dirs ∧
      terraformPlan w s (some request) = planInWorkspace w s1 request steps := by
  cases hc : mapGet s.installedVersions request.Version with
  | some p => exact ⟨s, [], rfl, by simp [terraformPlan, hc]⟩
  | none =>
    rcases hres with h | ⟨hv, hi⟩
    · exact absurd hc h
    · cases hp : w.install request.Version with
      | none => exact absurd hp hi
      | some p =>
        exact ⟨{ s with installedVersions := mapSet s.installedVersions request.Version p },
          [.newVersion request.Version, .install request.Version], rfl,
          by simp [terraformPlan, hc, installTerraform, hv, hp]⟩

/-- C8, amended. The handler answers with status 400 exactly when the body does
not decode: then it issues no call and changes nothing.  A decoded request is
not checked for empty fields: every response written for it has status 500;
when its version is not cached, parsing of the version is attempted, whatever
the version is; and when toolchain resolution and directory creation succeed,
the clone is called with the module path of the request, whatever it is. -/
theorem only_undecodable_body_rejected (w : World) (s : Process) :
    terraformPlan w s none =
      { state := s, response := some ⟨400, some "invalid schema"⟩, outcome := .returned
        steps := [] } ∧
    (∀ (request : TerraformRequest) (r : Response),
      (terraformPlan w s (some request)).response = some r → r.status = 500) ∧
    (∀ request : TerraformRequest, mapGet s.installedVersions request.Version = none →
      Step.newVersion request.Version ∈ (terraformPlan w s (some request)).steps) ∧
    (∀ (request : TerraformRequest) (dir : String),
      (mapGet s.installedVersions request.Version ≠ none ∨
        (w.newVersion request.Version = true ∧ w.install request.Version ≠ none)) →
      w.mkdirTemp s.dirs = some dir →
      Step.mkdirTemp (some dir) ∈ (terraformPlan w s (some request)).steps ∧
      Step.plainClone dir request.ModulePath ∈ (terraformPlan w s (some request)).steps) := by
  refine ⟨rfl, ?_, ?_, ?_⟩
  · intro request r h
    unfold terraformPlan at h
    dsimp only at h
    split at h
    · exact planInWorkspace_response _ _ _ _ _ h
    · split at h
      · simp at h
      · simp at h
      · simp at h; rw [← h]
      · exact planInWorkspace_response _ _ _ _ _ h
  · intro request hn
    unfold terraformPlan
    dsimp only
    rw [hn]
    dsimp only
    split
    · unfold installTerraform
      split
      · split <;> simp
      · simp
    · unfold installTerraform
      split
      · split <;> simp
      · simp
    · unfold installTerraform
      split
      · split <;> simp
      · simp
    · rename_i hout
      obtain ⟨tail, ht, -, -⟩ := planInWorkspace_steps w
        { s with installedVersions :=
            (installTerraform w s.installedVersions request.Version).installedVersions }
        request (installTerraform w s.installedVersions request.Version).steps
      rw [ht]
      apply List.mem_append_left
      unfold installTerraform
      split
      · split <;> simp
      · simp
  · intro request dir hres hdir
    obtain ⟨s1, steps, hd, heq⟩ := terraformPlan_resolved w s request hres
    rw [heq]
    exact planInWorkspace_clone w s1 request steps dir (by rw [hd]; exact hdir)

/-- C8, amended, at a request with an empty version and at one with an empty
module path. -/
theorem only_undecodable_body_rejected_witness :
    mapGet freshProcess.installedVersions "" = none ∧
    Step.newVersion "" ∈
      (terraformPlan sampleWorld freshProcess (some ⟨"", "https://example/repo.git", []⟩)).steps ∧
    sampleWorld.mkdirTemp freshProcess.dirs = some "/tmp/cloned-terraform-module0" ∧
    Step.plainClone "/tmp/cloned-terraform-module0" "" ∈
      (terraformPlan sampleWorld freshProcess (some ⟨"1.6.0", "", []⟩)).steps :=
  ⟨by decide,
   (only_undecodable_body_rejected sampleWorld freshProcess).2.2.1
     ⟨"", "https://example/repo.git", []⟩ (by decide),
   by decide,
   ((only_undecodable_body_rejected sampleWorld freshProcess).2.2.2 ⟨"1.6.0", "", []⟩
     "/tmp/cloned-terraform-module0" (Or.inr ⟨by decide, by decide⟩) (by decide)).2⟩

/-- The directories after the handler: the ones before, with at most the newly
created directory added. -/
theorem terraformPlan_dirs (w : World) (s : Process) (bound : Option TerraformRequest) :
    (terraformPlan w s bound).state.dirs = s.dirs ∨
    ∃ dir, w.mkdirTemp s.dirs = some dir ∧ (terraformPlan w s bound).state.dirs = dir :: s.dirs := by
  have key : ∀ (s1 : Process) (request : TerraformRequest) (steps : List Step),
      s1.dirs = s.dirs →
      ((planInWorkspace w s1 request steps).state.dirs = s.dirs ∨
       ∃ dir, w.mkdirTemp s.dirs = some dir ∧
         (planInWorkspace w s1 request steps).state.dirs = dir :: s.dirs) := by
    intro s1 request steps hd
    rw [planInWorkspace_dirs, hd]
    cases hm : w.mkdirTemp s.dirs with
    | none => exact Or.inl rfl
    | some dir => exact Or.inr ⟨dir, rfl, rfl⟩
  unfold terraformPlan
  split
  · exact Or.inl rfl
  · split
    · exact key _ _ _ rfl
    · dsimp only
      split
      · exact Or.inl rfl
      · exact Or.inl rfl
      · exact Or.inl rfl
      · exact key _ _ _ rfl

/-- C9, as stated, fails.  For a module source that cannot be cloned the handler
writes the clone-failure response and leaves the workspace directory it
created on disk; the directory is left as well when the whole request succeeds. -/
theorem workspace_left_behind :
    (terraformPlan sampleWorld freshProcess
      (some ⟨"1.6.0", "https://example/missing.git", []⟩)).response
      = some ⟨500, some "error cloning the repository"⟩ ∧
    (terraformPlan sampleWorld freshProcess
      (some ⟨"1.6.0", "https://example/missing.git", []⟩)).state.dirs
      = ["/tmp/cloned-terraform-module0"] ∧
    (terraformPlan sampleWorld freshProcess
      (some ⟨"1.6.0", "https://example/missing.git", []⟩)).state.dirs ≠ freshProcess.dirs ∧
    (terraformPlan sampleWorld freshProcess (some sampleRequest)).outcome = .returned ∧
    (terraformPlan sampleWorld freshProcess (some sampleRequest)).state.dirs
      ≠ freshProcess.dirs := by
  decide

/-- C9, amended. The handler removes no directory.  After it, the workspace
directories are either the ones before the request, or those with the newly
created directory added; and whenever toolchain resolution succeeds and the
directory `dir` is created, `dir` is still there after the handler, on every
path: clone failure, chdir failure, init failure, plan failure and success. -/
theorem workspace_never_removed (w : World) (s : Process) :
    (∀ bound : Option TerraformRequest,
      (terraformPlan w s bound).state.dirs = s.dirs ∨
      ∃ dir, w.mkdirTemp s.dirs = some dir ∧
        (terraformPlan w s bound).state.dirs = dir :: s.dirs) ∧
    (∀ (request : TerraformRequest) (dir : String),
      (mapGet s.installedVersions request.Version ≠ none ∨
        (w.newVersion request.Version = true ∧ w.install request.Version ≠ none)) →
      w.mkdirTemp s.dirs = some dir →
      (terraformPlan w s (some request)).state.dirs = dir :: s.dirs) := by
  refine ⟨terraformPlan_dirs w s, ?_⟩
  intro request dir hres hdir
  obtain ⟨s1, steps, hd, heq⟩ := terraformPlan_resolved w s request hres
  rw [heq, planInWorkspace_dirs, hd, hdir]

/-- C9, amended, at a request whose `Init` fails: both directories are on disk. -/
theorem workspace_never_removed_witness :
    brokenInitWorld.mkdirTemp warmProcess.dirs = some "/tmp/cloned-terraform-module1" ∧
    (terraformPlan brokenInitWorld warmProcess (some sampleRequest)).state.dirs
      = ["/tmp/cloned-terraform-module1", "/tmp/cloned-terraform-module0"] :=
  ⟨by decide,
   (workspace_never_removed brokenInitWorld warmProcess).2 sampleRequest
     "/tmp/cloned-terraform-module1" (Or.inl (by decide)) (by decide)⟩

/-- The handler keeps every entry of the version map. -/
theorem terraformPlan_keeps_entries (w : World) (s : Process) (bound : Option TerraformRequest)
    (k v : String) (h : mapGet s.installedVersions k = some v) :
    mapGet (terraformPlan w s bound).state.installedVersions k = some v := by
  unfold terraformPlan
  split
  · exact h
  · rename_i request
    split
    · rw [planInWorkspace_installedVersions]; exact h
    · rename_i hn
      have hne : k ≠ request.Version := by
        intro hk
        rw [hk, hn] at h
        exact absurd h (by simp)
      have hi : mapGet (installTerraform w s.installedVersions request.Version).installedVersions k
          = some v := by
        unfold installTerraform
        split
        · split
          · exact h
          · dsimp only
            rw [mapGet_mapSet_ne _ _ _ _ hne]; exact h
        · exact h
      dsimp only
      split
      · exact hi
      · exact hi
      · exact hi
      · rw [planInWorkspace_installedVersions]; exact hi

/-- Steps that install nothing do not change the number of installations. -/
theorem installCount_append_tail (steps tail : List Step)
    (h : ∀ st ∈ tail, st.isInstall = false) :
    installCount (steps ++ tail) = installCount steps := by
  have h0 : tail.filter Step.isInstall = [] := by
    rw [List.filter_eq_nil_iff]
    intro st hst
    simp [h st hst]
  simp [installCount, List.filter_append, h0]

/-- A request for a cached version: nothing is installed, the cached path is
the one that is run, the version map is left alone. -/
theorem terraformPlan_cached (w : World) (s : Process) (request : TerraformRequest) (p : String)
    (hc : mapGet s.installedVersions request.Version = some p) :
    installCount (terraformPlan w s (some request)).steps = 0 ∧
    (∀ st ∈ (terraformPlan w s (some request)).steps, ∀ e, st.execPath? = some e → e = p) ∧
    (terraformPlan w s (some request)).state.installedVersions = s.installedVersions := by
  have heq : terraformPlan w s (some request) = planInWorkspace w s request [] := by
    simp [terraformPlan, hc]
  obtain ⟨tail, ht, hni, hpath⟩ := planInWorkspace_steps w s request []
  rw [heq, ht]
  refine ⟨?_, ?_, planInWorkspace_installedVersions w s request []⟩
  · rw [installCount_append_tail _ _ hni]; rfl
  · intro st hst e he
    have := hpath st (by simpa using hst) e he
    simpa [hc] using this

/-- A request for a version that is not cached and installs with path `p`: one
installation, the version map gains the entry and keeps the others, `p` is the
path that is run. -/
theorem terraformPlan_uncached (w : World) (s : Process) (request : TerraformRequest) (p : String)
    (hn : mapGet s.installedVersions request.Version = none)
    (hv : w.newVersion request.Version = true)
    (hi : w.install request.Version = some p) :
    (terraformPlan w s (some request)).state.installedVersions
      = mapSet s.installedVersions request.Version p ∧
    installCount (terraformPlan w s (some request)).steps = 1 ∧
    (∀ st ∈ (terraformPlan w s (some request)).steps, ∀ e, st.execPath? = some e → e = p) := by
  have heq : terraformPlan w s (some request) =
      planInWorkspace w { s with installedVersions := mapSet s.installedVersions request.Version p }
        request [.newVersion request.Version, .install request.Version] := by
    simp [terraformPlan, hn, installTerraform, hv, hi]
  obtain ⟨tail, ht, hni, hpath⟩ := planInWorkspace_steps w
    { s with installedVersions := mapSet s.installedVersions request.Version p }
    request [.newVersion request.Version, .install request.Version]
  rw [heq, ht]
  refine ⟨planInWorkspace_installedVersions _ _ _ _, ?_, ?_⟩
  · rw [installCount_append_tail _ _ hni]
    simp [installCount, Step.isInstall]
  · intro st hst e he
    rcases List.mem_append.mp hst with h | h
    · simp at h
      rcases h with h | h <;> (rw [h] at he; simp [Step.execPath?] at he)
    · have := hpath st h e he
      simpa [mapGet_mapSet_self] using this

/-- C10. Toolchain cache, one request after the other.
(a) A request for a cached version installs nothing, runs the cached path and
leaves the version map as it was.
(b) A request for a version that is not cached, and whose installation succeeds
with path `p`, performs one installation, after which the map holds `p` for
that version and what it held before for every other version; `p` is the path
that is run.
(c) In that case a second request for the same version, served from the state
the first one left (the same process), installs nothing: the two requests perform exactly one installation and
every call that runs an executable runs `p`.
(d) Every entry of the map is still there, with the same path, after any
request. -/
theorem toolchain_cache_sequential (w w2 : World) (s : Process)
    (request request2 : TerraformRequest) (p : String) :
    (mapGet s.installedVersions request.Version = some p →
      installCount (terraformPlan w s (some request)).steps = 0 ∧
      (∀ st ∈ (terraformPlan w s (some request)).steps, ∀ e, st.execPath? = some e → e = p) ∧
      (terraformPlan w s (some request)).state.installedVersions = s.installedVersions) ∧
    (mapGet s.installedVersions request.Version = none →
      w.newVersion request.Version = true → w.install request.Version = some p →
      installCount (terraformPlan w s (some request)).steps = 1 ∧
      mapGet (terraformPlan w s (some request)).state.installedVersions request.Version = some p ∧
      (∀ k, k ≠ request.Version →
        mapGet (terraformPlan w s (some request)).state.installedVersions k
          = mapGet s.installedVersions k) ∧
      (∀ st ∈ (terraformPlan w s (some request)).steps, ∀ e, st.execPath? = some e → e = p)) ∧
    (mapGet s.installedVersions request.Version = none →
      w.newVersion request.Version = true → w.install request.Version = some p →
      request2.Version = request.Version →
      installCount ((terraformPlan w s (some request)).steps ++
        (terraformPlan w2 (terraformPlan w s (some request)).state (some request2)).steps) = 1 ∧
      (∀ st ∈ (terraformPlan w s (some request)).steps ++
          (terraformPlan w2 (terraformPlan w s (some request)).state (some request2)).steps,
        ∀ e, st.execPath? = some e → e = p)) ∧
    (∀ (bound : Option TerraformRequest) (k v : String),
      mapGet s.installedVersions k = some v →
      mapGet (terraformPlan w s bound).state.installedVersions k = some v) := by
  refine ⟨terraformPlan_cached w s request p, ?_, ?_, ?_⟩
  · intro hn hv hi
    obtain ⟨hm, hc, hp⟩ := terraformPlan_uncached w s request p hn hv hi
    refine ⟨hc, ?_, ?_, hp⟩
    · rw [hm]; exact mapGet_mapSet_self _ _ _
    · intro k hk
      rw [hm]; exact mapGet_mapSet_ne _ _ _ _ hk
  · intro hn hv hi h2
    obtain ⟨hm, hc, hp⟩ := terraformPlan_uncached w s request p hn hv hi
    have hcached : mapGet (terraformPlan w s (some request)).state.installedVersions
        request2.Version = some p := by
      rw [hm, h2]; exact mapGet_mapSet_self _ _ _
    obtain ⟨hc2, hp2, -⟩ := terraformPlan_cached w2 (terraformPlan w s (some request)).state
      request2 p hcached
    refine ⟨?_, ?_⟩
    · unfold installCount at hc hc2 ⊢
      rw [List.filter_append, List.length_append, hc, hc2]
    · intro st hst e he
      rcases List.mem_append.mp hst with h | h
      · exact hp st h e he
      · exact hp2 st h e he
  · intro bound k v h
    exact terraformPlan_keeps_entries w s bound k v h

/-- C10 at two requests for `1.6.0` on a fresh process, and at one request on a
process that has `1.6.0` cached. -/
theorem toolchain_cache_sequential_witness :
    mapGet freshProcess.installedVersions sampleRequest.Version = none ∧
    sampleWorld.install sampleRequest.Version = some "/bin/terraform_1.6.0" ∧
    installCount ((terraformPlan sampleWorld freshProcess (some sampleRequest)).steps ++
      (terraformPlan sampleWorld (terraformPlan sampleWorld freshProcess (some sampleRequest)).state
        (some sampleRequest)).steps) = 1 ∧
    Step.newTerraform "/tmp/cloned-terraform-module1" "/bin/terraform_1.6.0" ∈
      (terraformPlan sampleWorld (terraformPlan sampleWorld freshProcess (some sampleRequest)).state
        (some sampleRequest)).steps ∧
    mapGet warmProcess.installedVersions "1.6.0" = some "/opt/terraform_1.6.0" ∧
    installCount (terraformPlan sampleWorld warmProcess (some sampleRequest)).steps = 0 :=
  ⟨by decide, by decide,
   ((toolchain_cache_sequential sampleWorld sampleWorld freshProcess sampleRequest sampleRequest
      "/bin/terraform_1.6.0").2.2.1 (by decide) (by decide) (by decide) rfl).1,
   by decide, by decide,
   ((toolchain_cache_sequential sampleWorld sampleWorld warmProcess sampleRequest sampleRequest
      "/opt/terraform_1.6.0").1 (by decide)).1⟩

end Agent
